import Mathlib

/-!
Shallow embedding of the go-ecommerce backend (package `main` in
`cmd/api/api.go`, the `card` package and the `models` package excerpt, and
the invoice microservice handler) together with theorems settling the
frozen claims about it.

Each HTTP handler is embedded as a pure function from an *environment* —
a record holding the outcome of every external interaction the handler
can perform (JSON body decoding, Stripe calls, database statements, the
invoice microservice POST) — to a result record listing, in order, the
external effects the handler performed, the error-log lines it emitted,
the JSON response it wrote (if any), and the rows/payloads it produced.
Fallible external calls are `Except` values carried by the environment;
the handler's own control flow is translated branch by branch from the Go
source.
-/

namespace GoEcommerce

/-! ## The `card` package (source file `part_001`, `package card`) -/

/-- Stripe error codes are strings in the Stripe SDK (`type ErrorCode string`);
`stripe.ErrorCodeCardDeclined` is the constant `"card_declined"`. -/
def ErrorCodeCardDeclined : String := "card_declined"

/-- `stripe.ErrorCodeExpiredCard` is the constant `"expired_card"`. -/
def ErrorCodeExpiredCard : String := "expired_card"

/-- `cardErrorMessage` from the `card` package: a switch on the Stripe error
code returning `"Your card was declined"` for `ErrorCodeCardDeclined`,
`"Your card is expired"` for `ErrorCodeExpiredCard`, and
`"Your card was declined"` in the default case. -/
def cardErrorMessage (code : String) : String :=
  if code = ErrorCodeCardDeclined then "Your card was declined"
  else if code = ErrorCodeExpiredCard then "Your card is expired"
  else "Your card was declined"

/-- `card.Card`: credentials and currency for a Stripe call. -/
structure Card where
  Secret : String
  Key : String
  Currency : String
deriving Repr, DecidableEq

/-- A Stripe payment intent, as far as the handlers inspect it: its id and
the id of its latest charge. -/
structure PaymentIntent where
  ID : String
  LatestChargeID : String
deriving Repr, DecidableEq

/-- The error returned by `paymentintent.New`: either a `*stripe.Error`
carrying an error code, or some other error (the type assertion
`err.(*stripe.Error)` fails and `msg` stays `""`). -/
inductive StripeErr where
  | stripeError (code : String)
  | other (msg : String)
deriving Repr, DecidableEq

/-- Package-level (global) variables assigned by the embedded code.
`stripe.Key` is the Stripe SDK's package-level API-key variable. -/
inductive GlobalVar where
  | stripeKey
deriving Repr, DecidableEq

/-- Result of `Card.CreatePaymentIntent`: the package-level variables the
call assigned, and either the payment intent or the human-readable message
produced from the Stripe error code (`""` for a non-Stripe error). -/
structure CreatePIResult where
  globalWrites : List GlobalVar
  result : Except String PaymentIntent
deriving Repr

/-- `Card.CreatePaymentIntent` from the `card` package: it first assigns the
package-level variable `stripe.Key` from the card's key, then calls
`paymentintent.New` (its outcome supplied by `new`); on error it computes the
message via `cardErrorMessage` when the error is a `*stripe.Error`, else `""`. -/
def Card.CreatePaymentIntent (_c : Card) (new : Except StripeErr PaymentIntent)
    (_currency : String) (_amount : Int) : CreatePIResult :=
  match new with
  | .ok pi => { globalWrites := [GlobalVar.stripeKey], result := .ok pi }
  | .error e =>
      let msg := match e with
        | .stripeError code => cardErrorMessage code
        | .other _ => ""
      { globalWrites := [GlobalVar.stripeKey], result := .error msg }

/-- `Card.Charge` is an alias to `CreatePaymentIntent`. -/
def Card.Charge (c : Card) (new : Except StripeErr PaymentIntent)
    (currency : String) (amount : Int) : CreatePIResult :=
  c.CreatePaymentIntent new currency amount

/-! ## Go's `strconv.Atoi`

`strconv.Atoi` parses an optional sign followed by ASCII digits; it returns
`(0, err)` on a syntax error and the clamped 64-bit bound together with a
range error on overflow. Embedded as a value/ok pair. -/

def int64Max : Int := 9223372036854775807

def int64Min : Int := -9223372036854775808

/-- Go's `strconv.Atoi`, returning `(value, ok)`: on a syntax error the value
is `0`, on a range error the value is the clamped `int64` bound, and `ok` is
`false` in both error cases. -/
def goAtoi (s : String) : Int × Bool :=
  let (neg, ds) :=
    match s.data with
    | '+' :: rest => (false, rest)
    | '-' :: rest => (true, rest)
    | cs => (false, cs)
  if ds = [] ∨ ¬ ds.all (fun c => c.isDigit) then (0, false)
  else
    let mag : Int := ds.foldl (fun acc c => acc * 10 + ((c.toNat : Int) - 48)) 0
    let v : Int := if neg then -mag else mag
    if v < int64Min then (int64Min, false)
    else if int64Max < v then (int64Max, false)
    else (v, true)

/-! ## Data model

The `internal/models` package is not among the provided source files; the
row types below are reconstructed from the composite literals and field
accesses in `cmd/api/api.go` (and, where noted, modelled from the spec). -/

/-- `models.Transaction`, with exactly the fields `cmd/api/api.go` sets. -/
structure Transaction where
  Amount : Int
  Currency : String
  LastFour : String
  ExpiryMonth : Int
  ExpiryYear : Int
  TransactionStatusID : Int
  PaymentIntent : String
  PaymentMethod : String
  BankReturnCode : String
deriving Repr, DecidableEq

/-- `models.Order`, with the fields `cmd/api/api.go` sets; timestamps are
modelled as abstract clock readings (`Nat`). -/
structure Order where
  WidgetID : Int
  TransactionID : Int
  CustomerID : Int
  StatusID : Int
  Quantity : Int
  Amount : Int
  CreatedAt : Nat
  UpdatedAt : Nat
deriving Repr, DecidableEq

/-- `models.Customer`, with the fields `SaveCustomer` sets. -/
structure Customer where
  FirstName : String
  LastName : String
  Email : String
deriving Repr, DecidableEq

/-- `models.User`, with the fields the handlers read. -/
structure User where
  ID : Int
  Email : String
  Password : String
deriving Repr, DecidableEq

/-- A Stripe customer, as far as the handlers inspect it. -/
structure StripeCustomer where
  ID : String
deriving Repr, DecidableEq

/-- A Stripe subscription, as far as the handlers inspect it (only `.ID`
is read, as the saved transaction's payment intent). -/
structure Subscription where
  ID : String
deriving Repr, DecidableEq

/-- The `stripePayload` request body, with exactly the fields
`cmd/api/api.go` reads from it (the struct itself is declared in a handlers
file not among the sources). -/
structure StripePayload where
  Currency : String
  Amount : String
  PaymentMethod : String
  Email : String
  Plan : String
  LastFour : String
  ProductID : String
  FirstName : String
  LastName : String
  ExpiryMonth : Int
  ExpiryYear : Int
deriving Repr, DecidableEq

/-- `Invoice` from `cmd/api/api.go`: the JSON payload sent to the invoice
microservice. `CreatedAt` is an abstract clock reading. -/
structure Invoice where
  ID : Int
  WidgetID : Int
  Amount : Int
  Product : String
  Quantity : Int
  FirstName : String
  LastName : String
  Email : String
  CreatedAt : Nat
deriving Repr, DecidableEq

/-- `models.Token`. Modelled from the spec: `internal/models` is not among
the sources; the spec describes "a random opaque token stored in a table",
generated by `models.GenerateToken(userID, ttl, scope)`. The plaintext is
the randomness drawn by the generator; `TTL` is a Go `time.Duration` in
nanoseconds. -/
structure Token where
  PlainText : String
  UserID : Int
  TTL : Nat
  Scope : String
deriving Repr, DecidableEq

/-- Go's `time.Hour`, in nanoseconds. -/
def hour : Nat := 3600000000000

/-- `models.ScopeAuthentication`. Modelled from the spec: the token scope
constant used for authentication tokens. -/
def ScopeAuthentication : String := "authentication"

/-- `models.GenerateToken`. Modelled from the spec: generates a random
opaque token for the given user id, time-to-live and scope; `rand` is the
outcome of drawing the random plaintext. -/
def GenerateToken (rand : Except String String) (userID : Int) (ttl : Nat)
    (scope : String) : Except String Token :=
  rand.map (fun p => { PlainText := p, UserID := userID, TTL := ttl, Scope := scope })

/-! ## Responses, logs and effects -/

/-- The JSON responses a handler can write, one constructor per kind of
write in the source. `badRequest`, `invalidCredentials` and
`failedValidation` are the helper methods (their bodies live in a helpers
file not among the sources; modelled from the spec as writing a generic
JSON error response). `jsonResponse` is the ad-hoc `jsonResponse{OK, Message}`
struct written by the payment handlers. `writeJSON` is a
`{Error, Message}`-shaped payload written with an explicit status code.
`tokenPayload` is `CreateAuthToken`'s success payload carrying the token.
`content` stands for a marshalled data payload (payment intent, widget,
orders page, ...) whose body no claim inspects. -/
inductive Response where
  | badRequest (message : String)
  | invalidCredentials
  | failedValidation (errors : List (String × String))
  | jsonResponse (ok : Bool) (message : String)
  | writeJSON (status : Nat) (error : Bool) (message : String)
  | tokenPayload (message : String) (token : Token)
  | content (tag : String)
deriving Repr, DecidableEq

/-- The error-log statements in the embedded handlers, one constructor per
`app.errorLog.Println` site. -/
inductive LogSite where
  | decodeError
  | atoiError
  | createCustomerError
  | subscribeError
  | saveCustomerError
  | saveTransactionError
  | saveOrderError
  | invoiceCallError
deriving Repr, DecidableEq

/-- The external effects a handler can perform, covering every Stripe call,
database statement and outbound HTTP call appearing in the embedded
handlers (including the compensating actions — refund, subscription
cancellation, row deletion — that exist elsewhere in the API). -/
inductive Effect where
  | stripeCreateCustomer
  | stripeSubscribe
  | stripeRefund
  | stripeCancelSubscription
  | dbInsertCustomer
  | dbInsertTransaction
  | dbInsertOrder
  | dbDeleteRow
  | dbGetUserByEmail
  | dbGetUserForToken
  | dbInsertToken
  | invoicePost
deriving Repr, DecidableEq

/-! ## `GetPaymentIntent` (`cmd/api/api.go`) -/

/-- Environment of `GetPaymentIntent`: the outcome of decoding the request
body and the outcome of `paymentintent.New` inside `card.Charge`. -/
structure PIEnv where
  body : Except String StripePayload
  new : Except StripeErr PaymentIntent

/-- What `GetPaymentIntent` did: error-log lines and the response written. -/
structure PIHandlerResult where
  logs : List LogSite
  response : Option Response
deriving Repr

/-- `GetPaymentIntent`: decode the body (on error: log and return with no
response), parse the amount (on error: log and return with no response),
charge via `card.Charge`; on a charge error write `jsonResponse{OK:false,
Message:msg}` — without logging the error — else write the marshalled
payment intent. -/
def GetPaymentIntent (secret key : String) (env : PIEnv) : PIHandlerResult :=
  match env.body with
  | .error _ => { logs := [.decodeError], response := none }
  | .ok payload =>
    let (amount, ok) := goAtoi payload.Amount
    if ¬ ok then { logs := [.atoiError], response := none }
    else
      let card : Card := { Secret := secret, Key := key, Currency := payload.Currency }
      match (card.Charge env.new payload.Currency amount).result with
      | .error msg => { logs := [], response := some (.jsonResponse false msg) }
      | .ok _pi => { logs := [], response := some (.content "payment intent") }

/-! ## `CreateCustomerAndSubscribeToPlan` (`cmd/api/api.go`) -/

/-- Environment of `CreateCustomerAndSubscribeToPlan`: outcomes of decoding
the body, the two Stripe calls (`card.CreateCustomer` carries the message
returned alongside the error), the three database inserts, the invoice
microservice POST, and the clock. -/
structure SubEnv where
  body : Except String StripePayload
  createCustomer : Except String StripeCustomer
  subscribeToPlan : Except String Subscription
  insertCustomer : Except String Int
  insertTransaction : Except String Int
  insertOrder : Except String Int
  invoicePost : Except String Unit
  now : Nat

/-- What `CreateCustomerAndSubscribeToPlan` did: the external effects in
the order performed, the error-log lines, the response written (if any),
and the rows/payloads produced along the way (`savedCustomer`/`savedTxn`/
`savedOrder` are the successfully inserted rows, `sentInvoice` the payload
handed to `callInvoiceMicro`). -/
structure SubResult where
  effects : List Effect
  logs : List LogSite
  response : Option Response
  savedCustomer : Option Customer
  savedTxn : Option Transaction
  savedOrder : Option Order
  sentInvoice : Option Invoice
deriving Repr

/-- `app.SaveCustomer`: builds a `models.Customer` from the three fields and
inserts it, returning the new id (the insert's outcome is `outcome`). -/
def SaveCustomer (outcome : Except String Int) (firstName lastName email : String) :
    Customer × Except String Int :=
  ({ FirstName := firstName, LastName := lastName, Email := email }, outcome)

/-- `app.SaveTransaction`: inserts the transaction row, returning the new id. -/
def SaveTransaction (outcome : Except String Int) (_txn : Transaction) : Except String Int :=
  outcome

/-- `app.SaveOrder`: inserts the order row, returning the new id. -/
def SaveOrder (outcome : Except String Int) (_order : Order) : Except String Int :=
  outcome

/-- `CreateCustomerAndSubscribeToPlan`, translated branch by branch from
`cmd/api/api.go` lines 218–336. Decode errors and database errors log and
return without writing a response; Stripe errors set `okay = false` and fall
through to the final `jsonResponse{OK: okay, Message: txnMsg}` write; an
invoice-microservice error is logged but the success response is still
written. Fields the Go composite literals leave unset carry Go's zero
value. -/
def CreateCustomerAndSubscribeToPlan (env : SubEnv) : SubResult :=
  match env.body with
  | .error _ =>
    { effects := [], logs := [.decodeError], response := none,
      savedCustomer := none, savedTxn := none, savedOrder := none, sentInvoice := none }
  | .ok data =>
    if ¬ (data.FirstName.utf8ByteSize > 1) then
      { effects := [], logs := [],
        response := some (.failedValidation [("first_name", "must be at least 2 characters")]),
        savedCustomer := none, savedTxn := none, savedOrder := none, sentInvoice := none }
    else
      match env.createCustomer with
      | .error msg =>
        { effects := [.stripeCreateCustomer], logs := [.createCustomerError],
          response := some (.jsonResponse false msg),
          savedCustomer := none, savedTxn := none, savedOrder := none, sentInvoice := none }
      | .ok _stripeCustomer =>
        match env.subscribeToPlan with
        | .error _ =>
          { effects := [.stripeCreateCustomer, .stripeSubscribe], logs := [.subscribeError],
            response := some (.jsonResponse false "Error subscribing customer"),
            savedCustomer := none, savedTxn := none, savedOrder := none, sentInvoice := none }
        | .ok subscription =>
          let productID := (goAtoi data.ProductID).1
          let (customer, customerOutcome) :=
            SaveCustomer env.insertCustomer data.FirstName data.LastName data.Email
          match customerOutcome with
          | .error _ =>
            { effects := [.stripeCreateCustomer, .stripeSubscribe, .dbInsertCustomer],
              logs := [.saveCustomerError], response := none,
              savedCustomer := none, savedTxn := none, savedOrder := none, sentInvoice := none }
          | .ok customerID =>
            let amount := (goAtoi data.Amount).1
            let txn : Transaction :=
              { Amount := amount, Currency := "usd", LastFour := data.LastFour,
                ExpiryMonth := data.ExpiryMonth, ExpiryYear := data.ExpiryYear,
                TransactionStatusID := 2, PaymentIntent := subscription.ID,
                PaymentMethod := data.PaymentMethod, BankReturnCode := "" }
            match SaveTransaction env.insertTransaction txn with
            | .error _ =>
              { effects := [.stripeCreateCustomer, .stripeSubscribe, .dbInsertCustomer,
                  .dbInsertTransaction],
                logs := [.saveTransactionError], response := none,
                savedCustomer := some customer, savedTxn := none, savedOrder := none,
                sentInvoice := none }
            | .ok txnID =>
              let order : Order :=
                { WidgetID := productID, TransactionID := txnID, CustomerID := customerID,
                  StatusID := 1, Quantity := 1, Amount := amount,
                  CreatedAt := env.now, UpdatedAt := env.now }
              match SaveOrder env.insertOrder order with
              | .error _ =>
                { effects := [.stripeCreateCustomer, .stripeSubscribe, .dbInsertCustomer,
                    .dbInsertTransaction, .dbInsertOrder],
                  logs := [.saveOrderError], response := none,
                  savedCustomer := some customer, savedTxn := some txn, savedOrder := none,
                  sentInvoice := none }
              | .ok orderID =>
                let inv : Invoice :=
                  { ID := orderID, WidgetID := 0, Amount := 2000,
                    Product := "Bronze Plan monthly subscription", Quantity := order.Quantity,
                    FirstName := data.FirstName, LastName := data.LastName,
                    Email := data.Email, CreatedAt := env.now }
                match env.invoicePost with
                | .error _ =>
                  { effects := [.stripeCreateCustomer, .stripeSubscribe, .dbInsertCustomer,
                      .dbInsertTransaction, .dbInsertOrder, .invoicePost],
                    logs := [.invoiceCallError],
                    response := some (.jsonResponse true "Transaction successful"),
                    savedCustomer := some customer, savedTxn := some txn,
                    savedOrder := some order, sentInvoice := some inv }
                | .ok _ =>
                  { effects := [.stripeCreateCustomer, .stripeSubscribe, .dbInsertCustomer,
                      .dbInsertTransaction, .dbInsertOrder, .invoicePost],
                    logs := [],
                    response := some (.jsonResponse true "Transaction successful"),
                    savedCustomer := some customer, savedTxn := some txn,
                    savedOrder := some order, sentInvoice := some inv }

/-- The five-stage sequence of the subscription workflow (the Stripe charge
is its two calls), in the order the handler performs them. -/
def subscriptionSteps : List Effect :=
  [.stripeCreateCustomer, .stripeSubscribe, .dbInsertCustomer,
   .dbInsertTransaction, .dbInsertOrder, .invoicePost]

/-! ## `callInvoiceMicro` (`cmd/api/api.go`) -/

/-- JSON values, for the marshalled bodies the embedding must exhibit.
`time` stands for the RFC 3339 rendering of a clock reading. -/
inductive Json where
  | str (s : String)
  | num (n : Int)
  | bool (b : Bool)
  | time (t : Nat)
  | obj (fields : List (String × Json))
deriving Repr

/-- `json.MarshalIndent` applied to an `Invoice`: the object with the
struct's json tags, in declaration order. -/
def marshalInvoice (inv : Invoice) : Json :=
  .obj [("id", .num inv.ID), ("widget_id", .num inv.WidgetID),
        ("amount", .num inv.Amount), ("product", .str inv.Product),
        ("quantity", .num inv.Quantity), ("first_name", .str inv.FirstName),
        ("last_name", .str inv.LastName), ("email", .str inv.Email),
        ("created_at", .time inv.CreatedAt)]

/-- An outbound HTTP request as `callInvoiceMicro` builds it. -/
structure HTTPRequest where
  method : String
  url : String
  contentType : String
  body : Json
deriving Repr

/-- `callInvoiceMicro`: marshals the invoice and POSTs it, with
`Content-Type: application/json`, to the hard-coded URL
`http://localhost:5000/invoice/create-and-send`. This function builds the
request; the handler's environment carries the outcome of sending it. -/
def callInvoiceMicro (inv : Invoice) : HTTPRequest :=
  { method := "POST",
    url := "http://localhost:5000/invoice/create-and-send",
    contentType := "application/json",
    body := marshalInvoice inv }

/-! ## `CreateAuthToken` and token authentication (`cmd/api/api.go`) -/

/-- The decoded `{email, password}` body of `CreateAuthToken`. -/
structure AuthInput where
  Email : String
  Password : String
deriving Repr, DecidableEq

/-- Environment of `CreateAuthToken`: outcomes of `readJSON`, the user
lookup, the bcrypt comparison (`app.passwordMatches`, a helper not among
the sources; modelled from the spec as bcrypt password hashing — the
environment carries its outcome), the random draw inside
`models.GenerateToken`, and the token insert. -/
structure AuthEnv where
  body : Except String AuthInput
  getUserByEmail : Except String User
  passwordMatches : Except String Bool
  rand : Except String String
  insertToken : Except String Unit

/-- What `CreateAuthToken` did: effects, the response (every path writes
one), the token generated (if generation was reached and succeeded) and
the token actually stored in the tokens table. -/
structure AuthResult where
  effects : List Effect
  response : Response
  generatedToken : Option Token
  storedToken : Option Token
deriving Repr

/-- `CreateAuthToken`, translated branch by branch from `cmd/api/api.go`
lines 401–476: bad request on a decode error; invalid credentials on a
failed email lookup, a bcrypt-comparison error, or a password mismatch;
then `models.GenerateToken(user.ID, time.Hour*24, ScopeAuthentication)`
and `DB.InsertToken`, each answering bad request on failure; on success a
payload carrying the token. -/
def CreateAuthToken (env : AuthEnv) : AuthResult :=
  match env.body with
  | .error msg =>
    { effects := [], response := .badRequest msg, generatedToken := none, storedToken := none }
  | .ok userInput =>
    match env.getUserByEmail with
    | .error _ =>
      { effects := [.dbGetUserByEmail], response := .invalidCredentials,
        generatedToken := none, storedToken := none }
    | .ok user =>
      match env.passwordMatches with
      | .error _ =>
        { effects := [.dbGetUserByEmail], response := .invalidCredentials,
          generatedToken := none, storedToken := none }
      | .ok false =>
        { effects := [.dbGetUserByEmail], response := .invalidCredentials,
          generatedToken := none, storedToken := none }
      | .ok true =>
        match GenerateToken env.rand user.ID (hour * 24) ScopeAuthentication with
        | .error msg =>
          { effects := [.dbGetUserByEmail], response := .badRequest msg,
            generatedToken := none, storedToken := none }
        | .ok token =>
          match env.insertToken with
          | .error msg =>
            { effects := [.dbGetUserByEmail, .dbInsertToken], response := .badRequest msg,
              generatedToken := some token, storedToken := none }
          | .ok _ =>
            { effects := [.dbGetUserByEmail, .dbInsertToken],
              response := .tokenPayload ("token for " ++ userInput.Email ++ " created") token,
              generatedToken := some token, storedToken := some token }

/-- Splitting a character list around each occurrence of `' '`, keeping
empty fields — the semantics of Go's `strings.Split(s, " ")`. -/
def splitFields : List Char → List (List Char)
  | [] => [[]]
  | c :: rest =>
    let r := splitFields rest
    if c = ' ' then [] :: r
    else
      match r with
      | [] => [[c]]
      | h :: t => (c :: h) :: t

/-- Go's `strings.Split(s, " ")`. -/
def goSplitSpace (s : String) : List String :=
  (splitFields s.data).map List.asString

/-- Environment of `authenticateToken`: the outcome of the tokens-table
lookup. -/
structure TokenAuthEnv where
  getUserForToken : Except String User

/-- What `authenticateToken` did: the user or error it returned, and the
database queries it performed. -/
structure TokenAuthResult where
  result : Except String User
  effects : List Effect
deriving Repr

/-- `authenticateToken` from `cmd/api/api.go` lines 505–528: reject an
empty `Authorization` header, a header that does not split on spaces into
exactly two parts with first part `"Bearer"`, and a token whose (byte)
length is not 26 — all before touching the database; only then look the
user up in the tokens table. -/
def authenticateToken (env : TokenAuthEnv) (authorizationHeader : String) : TokenAuthResult :=
  if authorizationHeader = "" then
    { result := .error "no authorization header received", effects := [] }
  else
    let headerParts := goSplitSpace authorizationHeader
    if headerParts.length ≠ 2 ∨ headerParts.head? ≠ some "Bearer" then
      { result := .error "no authorization header received", effects := [] }
    else
      let token := headerParts.getD 1 ""
      if token.utf8ByteSize ≠ 26 then
        { result := .error "authentication token wrong size", effects := [] }
      else
        match env.getUserForToken with
        | .error _ =>
          { result := .error "no matching user found", effects := [.dbGetUserForToken] }
        | .ok user =>
          { result := .ok user, effects := [.dbGetUserForToken] }

/-- `CheckAuthentication`: invalid credentials when `authenticateToken`
fails, else a success payload naming the authenticated user. -/
def CheckAuthentication (env : TokenAuthEnv) (authorizationHeader : String) : Response :=
  match (authenticateToken env authorizationHeader).result with
  | .error _ => .invalidCredentials
  | .ok user => .writeJSON 200 false ("authenticated user " ++ user.Email)

/-! ## The remaining handlers, at the level of the response they write

Only the claims about the error taxonomy inspect these handlers, so they
are embedded as response functions: each environment field is the outcome
of the corresponding external call, in the order the Go code performs
them. -/

/-- `GetWidgetByID`: on a lookup or marshalling error the handler logs and
returns with no response; on success it writes the marshalled widget. -/
def GetWidgetByID (getWidget : Except String Unit) : Option Response :=
  match getWidget with
  | .error _ => none
  | .ok _ => some (.content "widget")

/-- Environment of `VirtualTerminalPaymentSucceeded`. -/
structure VTEnv where
  body : Except String Unit
  retrievePaymentIntent : Except String Unit
  getPaymentMethod : Except String Unit
  insertTransaction : Except String Unit

/-- `VirtualTerminalPaymentSucceeded`: bad request on any of the four
failures, else the marshalled saved transaction. -/
def VirtualTerminalPaymentSucceeded (env : VTEnv) : Response :=
  match env.body with
  | .error msg => .badRequest msg
  | .ok _ =>
    match env.retrievePaymentIntent with
    | .error msg => .badRequest msg
    | .ok _ =>
      match env.getPaymentMethod with
      | .error msg => .badRequest msg
      | .ok _ =>
        match env.insertTransaction with
        | .error msg => .badRequest msg
        | .ok _ => .content "transaction"

/-- Environment of `SendPasswordResetEmail`; `sign` is
`urlsigner.Signer.GenerateTokenFromString` (not among the sources; the
spec calls URL-signing thin glue, so it is carried as an oracle). -/
structure ResetEmailEnv where
  body : Except String String
  getUserByEmail : Except String User
  sendMail : Except String Unit
  sign : String → String

/-- `SendPasswordResetEmail`: bad request on a decode or mail error; when
the email lookup fails it writes — with status `http.StatusAccepted`
(202) — the JSON `{error: true, message: "No matching email found on
system"}`; on success a 201 with no error. -/
def SendPasswordResetEmail (frontend : String) (env : ResetEmailEnv) : Response :=
  match env.body with
  | .error msg => .badRequest msg
  | .ok email =>
    match env.getUserByEmail with
    | .error _ => .writeJSON 202 true "No matching email found on system"
    | .ok _ =>
      let link := frontend ++ "/reset-password?email=" ++ email
      let _signedLink := env.sign link
      match env.sendMail with
      | .error msg => .badRequest msg
      | .ok _ => .writeJSON 201 false ""

/-- Environment of `ResetPassword`. -/
structure ResetPasswordEnv where
  body : Except String Unit
  decrypt : Except String String
  getUserByEmail : Except String User
  generateHash : Except String String
  updatePassword : Except String Unit

/-- `ResetPassword`: bad request on any of the five failures, else a 201
with `"password changed"`. -/
def ResetPassword (env : ResetPasswordEnv) : Response :=
  match env.body with
  | .error msg => .badRequest msg
  | .ok _ =>
    match env.decrypt with
    | .error msg => .badRequest msg
    | .ok _ =>
      match env.getUserByEmail with
      | .error msg => .badRequest msg
      | .ok _ =>
        match env.generateHash with
        | .error msg => .badRequest msg
        | .ok _ =>
          match env.updatePassword with
          | .error msg => .badRequest msg
          | .ok _ => .writeJSON 201 false "password changed"

/-- Environment shared by the two paginated listings. -/
structure PaginatedEnv where
  body : Except String Unit
  query : Except String Unit

/-- `AllSales`: bad request on a decode or query failure, else the orders
page. -/
def AllSales (env : PaginatedEnv) : Response :=
  match env.body with
  | .error msg => .badRequest msg
  | .ok _ =>
    match env.query with
    | .error msg => .badRequest msg
    | .ok _ => .content "orders page"

/-- `AllSubscriptions`: bad request on a decode or query failure, else the
subscriptions page. -/
def AllSubscriptions (env : PaginatedEnv) : Response :=
  match env.body with
  | .error msg => .badRequest msg
  | .ok _ =>
    match env.query with
    | .error msg => .badRequest msg
    | .ok _ => .content "subscriptions page"

/-- `GetSale`: bad request on a lookup failure, else the marshalled order. -/
def GetSale (getOrderByID : Except String Unit) : Response :=
  match getOrderByID with
  | .error msg => .badRequest msg
  | .ok _ => .content "order"

/-- Environment of `RefundCharge` / `CancelSubscription`. -/
structure StripeOpEnv where
  body : Except String Unit
  stripeOp : Except String Unit
  updateOrderStatus : Except String Unit

/-- `RefundCharge`: bad request on a decode or refund failure; when the
refund succeeded but the status update failed, bad request with the fixed
message; else `"Charge Refunded"`. -/
def RefundCharge (env : StripeOpEnv) : Response :=
  match env.body with
  | .error msg => .badRequest msg
  | .ok _ =>
    match env.stripeOp with
    | .error msg => .badRequest msg
    | .ok _ =>
      match env.updateOrderStatus with
      | .error _ => .badRequest "the charge was refunded, but the database could not be updated"
      | .ok _ => .writeJSON 200 false "Charge Refunded"

/-- `CancelSubscription`: as `RefundCharge`, with the cancellation call and
its fixed message. -/
def CancelSubscription (env : StripeOpEnv) : Response :=
  match env.body with
  | .error msg => .badRequest msg
  | .ok _ =>
    match env.stripeOp with
    | .error msg => .badRequest msg
    | .ok _ =>
      match env.updateOrderStatus with
      | .error _ => .badRequest "the subscription was cancelled, but the database could not be updated"
      | .ok _ => .writeJSON 200 false "Subscription Cancelled"

/-- `AllUsers`: bad request on a query failure, else the users list. -/
def AllUsers (getAllUsers : Except String Unit) : Response :=
  match getAllUsers with
  | .error msg => .badRequest msg
  | .ok _ => .content "users"

/-- `OneUser`: bad request on a lookup failure, else the marshalled user. -/
def OneUser (getOneUser : Except String Unit) : Response :=
  match getOneUser with
  | .error msg => .badRequest msg
  | .ok _ => .content "user"

/-- Environment of `EditUser`. -/
structure EditUserEnv where
  userID : Int
  body : Except String User
  editUser : Except String Unit
  generateHash : Except String String
  updatePassword : Except String Unit
  addUser : Except String Unit

/-- `EditUser`: bad request on a decode failure; for `userID > 0` edit the
user (and, when the payload carries a password, hash and update it), else
hash the password and add the user — every failure a bad request, success
a 200 with no error. -/
def EditUser (env : EditUserEnv) : Response :=
  match env.body with
  | .error msg => .badRequest msg
  | .ok user =>
    if env.userID > 0 then
      match env.editUser with
      | .error msg => .badRequest msg
      | .ok _ =>
        if user.Password ≠ "" then
          match env.generateHash with
          | .error msg => .badRequest msg
          | .ok _ =>
            match env.updatePassword with
            | .error msg => .badRequest msg
            | .ok _ => .writeJSON 200 false ""
        else .writeJSON 200 false ""
    else
      match env.generateHash with
      | .error msg => .badRequest msg
      | .ok _ =>
        match env.addUser with
        | .error msg => .badRequest msg
        | .ok _ => .writeJSON 200 false ""

/-- `DeleteUser`: bad request on a delete failure, else a 200 with no
error. -/
def DeleteUser (deleteUser : Except String Unit) : Response :=
  match deleteUser with
  | .error msg => .badRequest msg
  | .ok _ => .writeJSON 200 false ""

/-- The order payload of the invoice microservice (`part_000` declares its
own `Order` struct; named `MicroOrder` here to keep it apart from
`models.Order`). -/
structure MicroOrder where
  ID : Int
  Quantity : Int
  Amount : Int
  Product : String
  FirstName : String
  LastName : String
  Email : String
  CreatedAt : Nat
deriving Repr, DecidableEq

/-- `CreateAndSendInvoice` (the invoice microservice, `part_000`): bad
request on a decode failure, else a 201 announcing the invoice sent to the
order's email. -/
def CreateAndSendInvoice (body : Except String MicroOrder) : Response :=
  match body with
  | .error msg => .badRequest msg
  | .ok order =>
    .writeJSON 201 false
      ("Invoice " ++ toString order.ID ++ ".pdf created and sent to " ++ order.Email)

/-! ## Error-response kinds -/

/-- The kinds of error response the API can produce. -/
inductive ErrKind where
  | badRequest
  | invalidCredentials
  | failedValidation
  | txnFailure
  | otherJSONError
deriving Repr, DecidableEq

/-- Classify a response: `none` for success payloads, otherwise the kind of
error response it is. `jsonResponse` with `OK = false` is the payment
handlers' transaction-failure message; a `writeJSON` payload with
`error = true` (only the password-reset "no matching email" notice) is its
own kind. -/
def errorKind : Response → Option ErrKind
  | .badRequest _ => some .badRequest
  | .invalidCredentials => some .invalidCredentials
  | .failedValidation _ => some .failedValidation
  | .jsonResponse ok _ => if ok then none else some .txnFailure
  | .writeJSON _ e _ => if e then some .otherJSONError else none
  | .tokenPayload _ _ => none
  | .content _ => none

/-- A response is an error response when it has an error kind. -/
def isErrorResponse (r : Response) : Bool :=
  (errorKind r).isSome

/-! ## Success predicates on the subscription environment -/

/-- The Stripe customer creation succeeded. -/
def createCustomerOk (env : SubEnv) : Prop := ∃ c, env.createCustomer = .ok c

/-- The Stripe plan subscription succeeded. -/
def subscribeOk (env : SubEnv) : Prop := ∃ s, env.subscribeToPlan = .ok s

/-- The customer-row insert succeeded. -/
def insertCustomerOk (env : SubEnv) : Prop := ∃ n, env.insertCustomer = .ok n

/-- The transaction-row insert succeeded. -/
def insertTransactionOk (env : SubEnv) : Prop := ∃ n, env.insertTransaction = .ok n

/-- The order-row insert succeeded. -/
def insertOrderOk (env : SubEnv) : Prop := ∃ n, env.insertOrder = .ok n

/-! ## Sample inputs used by the concrete witnesses -/

/-- A well-formed subscription payload. -/
def samplePayload : StripePayload :=
  { Currency := "eur", Amount := "1234", PaymentMethod := "pm_1", Email := "jo@example.com",
    Plan := "plan_bronze", LastFour := "4242", ProductID := "2", FirstName := "Jo",
    LastName := "Doe", ExpiryMonth := 12, ExpiryYear := 2030 }

/-- A subscription environment in which every external call succeeds. -/
def subEnvAllOk : SubEnv :=
  { body := .ok samplePayload, createCustomer := .ok { ID := "cus_1" },
    subscribeToPlan := .ok { ID := "sub_1" }, insertCustomer := .ok 11,
    insertTransaction := .ok 22, insertOrder := .ok 33, invoicePost := .ok (), now := 5 }

/-- A payment-intent environment in which Stripe declines the card. -/
def piEnvCardDeclined : PIEnv :=
  { body := .ok samplePayload, new := .error (.stripeError ErrorCodeCardDeclined) }

/-- A stored admin user. -/
def sampleUser : User :=
  { ID := 1, Email := "admin@example.com", Password := "$2a$12$storedhash" }

/-- An authentication environment in which everything succeeds. -/
def authEnvOk : AuthEnv :=
  { body := .ok { Email := "admin@example.com", Password := "secret" },
    getUserByEmail := .ok sampleUser, passwordMatches := .ok true,
    rand := .ok "ABCDEFGHIJKLMNOPQRSTUVWXYZ", insertToken := .ok () }

/-- `subEnvAllOk` with the order insert failing. -/
def subEnvOrderFail : SubEnv := { subEnvAllOk with insertOrder := .error "insert failed" }

/-- `subEnvAllOk` with the customer insert failing. -/
def subEnvCustFail : SubEnv :=
  { subEnvAllOk with insertCustomer := .error "dial tcp: connection refused" }

/-- `authEnvOk` with the token insert failing. -/
def authEnvInsertFail : AuthEnv :=
  { authEnvOk with insertToken := .error "Error 1045: access denied" }

/-- A password-reset environment whose email lookup finds no user. -/
def resetEnvNoUser : ResetEmailEnv :=
  { body := .ok "ghost@example.com", getUserByEmail := .error "sql: no rows in result set",
    sendMail := .ok (), sign := fun s => s }

/-- The invoice `subEnvAllOk` produces. -/
def invoiceW : Invoice :=
  { ID := 33, WidgetID := 0, Amount := 2000, Product := "Bronze Plan monthly subscription",
    Quantity := 1, FirstName := "Jo", LastName := "Doe", Email := "jo@example.com",
    CreatedAt := 5 }

/-- The token `authEnvOk` produces. -/
def tokenW : Token :=
  { PlainText := "ABCDEFGHIJKLMNOPQRSTUVWXYZ", UserID := 1, TTL := hour * 24,
    Scope := ScopeAuthentication }

/-! # Theorems settling the claims -/

/-- C10: `cardErrorMessage` returns `"Your card is expired"` exactly for
`ErrorCodeExpiredCard`, and `"Your card was declined"` for every other
error code (including `ErrorCodeCardDeclined` and all codes not explicitly
listed). -/
theorem cardErrorMessage_spec (code : String) :
    cardErrorMessage code =
      if code = ErrorCodeExpiredCard then "Your card is expired"
      else "Your card was declined" := by
  unfold cardErrorMessage ErrorCodeCardDeclined ErrorCodeExpiredCard
  split_ifs with h1 h2 <;> simp_all

/-- C4 counterexample: processing a payment-intent request does write a
package-level global variable — `Card.CreatePaymentIntent` assigns
`stripe.Key` on this concrete call, refuting the claim that no
package-level global visible to other requests is written. -/
theorem createPaymentIntent_writes_global_cex :
    GlobalVar.stripeKey ∈
      (Card.CreatePaymentIntent { Secret := "sk_test", Key := "pk_test", Currency := "usd" }
        (.ok { ID := "pi_1", LatestChargeID := "ch_1" }) "usd" 100).globalWrites := by
  decide

/-- C4 amended: every `Card.CreatePaymentIntent` call (whatever its card,
outcome, currency and amount) writes exactly the package-level
`stripe.Key` variable and no other global. -/
theorem createPaymentIntent_global_writes (c : Card) (new : Except StripeErr PaymentIntent)
    (currency : String) (amount : Int) :
    (c.CreatePaymentIntent new currency amount).globalWrites = [GlobalVar.stripeKey] := by
  unfold Card.CreatePaymentIntent
  cases new <;> rfl

/-- C6: `callInvoiceMicro` builds, for every invoice, a POST to the fixed
URL `http://localhost:5000/invoice/create-and-send` with Content-Type
`application/json` and the marshalled `Invoice` struct as body; the URL
depends on neither the invoice nor any configuration. -/
theorem callInvoiceMicro_fixed_request (inv : Invoice) :
    (callInvoiceMicro inv).url = "http://localhost:5000/invoice/create-and-send" ∧
    (callInvoiceMicro inv).method = "POST" ∧
    (callInvoiceMicro inv).contentType = "application/json" ∧
    (callInvoiceMicro inv).body = marshalInvoice inv :=
  ⟨rfl, rfl, rfl, rfl⟩

/-- C1: `CreateCustomerAndSubscribeToPlan` is a fixed linear sequence —
create the Stripe customer, subscribe it to the plan, save the customer
row, save the transaction row, save the order row, call the invoice
microservice — and for every input the performed effects are a prefix of
that sequence, each later step running only if every earlier step
succeeded. -/
theorem subscription_workflow_linear (env : SubEnv) :
    (CreateCustomerAndSubscribeToPlan env).effects <+: subscriptionSteps ∧
    (Effect.stripeSubscribe ∈ (CreateCustomerAndSubscribeToPlan env).effects →
      createCustomerOk env) ∧
    (Effect.dbInsertCustomer ∈ (CreateCustomerAndSubscribeToPlan env).effects →
      createCustomerOk env ∧ subscribeOk env) ∧
    (Effect.dbInsertTransaction ∈ (CreateCustomerAndSubscribeToPlan env).effects →
      createCustomerOk env ∧ subscribeOk env ∧ insertCustomerOk env) ∧
    (Effect.dbInsertOrder ∈ (CreateCustomerAndSubscribeToPlan env).effects →
      createCustomerOk env ∧ subscribeOk env ∧ insertCustomerOk env ∧
      insertTransactionOk env) ∧
    (Effect.invoicePost ∈ (CreateCustomerAndSubscribeToPlan env).effects →
      createCustomerOk env ∧ subscribeOk env ∧ insertCustomerOk env ∧
      insertTransactionOk env ∧ insertOrderOk env) := by
  obtain ⟨body, cc, sub, ic, it, io, ip, now⟩ := env
  simp only [CreateCustomerAndSubscribeToPlan, SaveCustomer, SaveTransaction, SaveOrder,
    createCustomerOk, subscribeOk, insertCustomerOk, insertTransactionOk, insertOrderOk]
  cases body with
  | error e =>
    refine ⟨⟨_, rfl⟩, ?_, ?_, ?_, ?_, ?_⟩ <;> intro h <;> simp_all
  | ok data =>
    by_cases hv : data.FirstName.utf8ByteSize > 1
    · simp only [hv, not_true, if_true, ite_true, ite_false, if_neg, not_false_eq_true]
      cases cc with
      | error msg =>
        refine ⟨⟨_, rfl⟩, ?_, ?_, ?_, ?_, ?_⟩ <;> intro h <;> simp_all
      | ok c =>
        cases sub with
        | error e2 =>
          refine ⟨⟨_, rfl⟩, ?_, ?_, ?_, ?_, ?_⟩ <;> intro h <;> simp_all
        | ok s =>
          cases ic with
          | error e3 =>
            refine ⟨⟨_, rfl⟩, ?_, ?_, ?_, ?_, ?_⟩ <;> intro h <;> simp_all
          | ok nc =>
            cases it with
            | error e4 =>
              refine ⟨⟨_, rfl⟩, ?_, ?_, ?_, ?_, ?_⟩ <;> intro h <;> simp_all
            | ok nt =>
              cases io with
              | error e5 =>
                refine ⟨⟨_, rfl⟩, ?_, ?_, ?_, ?_, ?_⟩ <;> intro h <;> simp_all
              | ok no =>
                cases ip with
                | error e6 =>
                  refine ⟨⟨_, rfl⟩, ?_, ?_, ?_, ?_, ?_⟩ <;> intro h <;> simp_all
                | ok u =>
                  refine ⟨⟨_, rfl⟩, ?_, ?_, ?_, ?_, ?_⟩ <;> intro h <;> simp_all
    · constructor
      · simp [hv]
      · refine ⟨?_, ?_, ?_, ?_, ?_⟩ <;> intro h <;> simp_all

/-- C1 witness: in the all-successful environment the whole sequence runs
and every step succeeded. -/
theorem subscription_workflow_linear_witness :
    (CreateCustomerAndSubscribeToPlan subEnvAllOk).effects <+: subscriptionSteps ∧
    (createCustomerOk subEnvAllOk ∧ subscribeOk subEnvAllOk ∧ insertCustomerOk subEnvAllOk ∧
      insertTransactionOk subEnvAllOk ∧ insertOrderOk subEnvAllOk) :=
  ⟨(subscription_workflow_linear subEnvAllOk).1,
   (subscription_workflow_linear subEnvAllOk).2.2.2.2.2 (by decide)⟩

/-- C3: after the Stripe charge (customer creation and subscription)
succeeded, a failure of any persistence step triggers no compensating
action — no refund, no subscription cancellation, no row deletion — and
the handler writes no response and emits exactly one error-log line. -/
theorem subscription_no_compensation (env : SubEnv)
    (hbody : ∃ data, env.body = .ok data ∧ data.FirstName.utf8ByteSize > 1)
    (hcc : createCustomerOk env) (hsub : subscribeOk env)
    (hfail : ¬ insertCustomerOk env ∨ ¬ insertTransactionOk env ∨ ¬ insertOrderOk env) :
    Effect.stripeRefund ∉ (CreateCustomerAndSubscribeToPlan env).effects ∧
    Effect.stripeCancelSubscription ∉ (CreateCustomerAndSubscribeToPlan env).effects ∧
    Effect.dbDeleteRow ∉ (CreateCustomerAndSubscribeToPlan env).effects ∧
    (CreateCustomerAndSubscribeToPlan env).response = none ∧
    (CreateCustomerAndSubscribeToPlan env).logs.length = 1 := by
  obtain ⟨body, cc, sub, ic, it, io, ip, now⟩ := env
  obtain ⟨data, hb, hvgt⟩ := hbody
  subst hb
  obtain ⟨c, rfl⟩ := hcc
  obtain ⟨s, rfl⟩ := hsub
  simp only [CreateCustomerAndSubscribeToPlan, SaveCustomer, SaveTransaction, SaveOrder, hvgt,
    not_true_eq_false, if_false, ite_false, if_neg, not_false_eq_true, ite_true]
  cases ic with
  | error e => refine ⟨?_, ?_, ?_, ?_, ?_⟩ <;> simp
  | ok nc =>
    cases it with
    | error e => refine ⟨?_, ?_, ?_, ?_, ?_⟩ <;> simp
    | ok nt =>
      cases io with
      | error e => refine ⟨?_, ?_, ?_, ?_, ?_⟩ <;> simp
      | ok no =>
        exfalso
        rcases hfail with hf | hf | hf
        · exact hf ⟨nc, rfl⟩
        · exact hf ⟨nt, rfl⟩
        · exact hf ⟨no, rfl⟩

/-- C3 witness: the concrete environment whose order insert fails. -/
theorem subscription_no_compensation_witness :
    Effect.stripeRefund ∉ (CreateCustomerAndSubscribeToPlan subEnvOrderFail).effects ∧
    Effect.stripeCancelSubscription ∉ (CreateCustomerAndSubscribeToPlan subEnvOrderFail).effects ∧
    Effect.dbDeleteRow ∉ (CreateCustomerAndSubscribeToPlan subEnvOrderFail).effects ∧
    (CreateCustomerAndSubscribeToPlan subEnvOrderFail).response = none ∧
    (CreateCustomerAndSubscribeToPlan subEnvOrderFail).logs.length = 1 :=
  subscription_no_compensation subEnvOrderFail ⟨samplePayload, rfl, by decide⟩ ⟨_, rfl⟩ ⟨_, rfl⟩
    (Or.inr (Or.inr (fun ⟨n, h⟩ => by simp [subEnvOrderFail, subEnvAllOk] at h)))

/-- C9: whatever the request payload, the saved transaction carries
currency `"usd"`, the saved order has quantity 1, and the invoice sent to
the microservice has amount 2000, product `"Bronze Plan monthly
subscription"` and quantity 1. -/
theorem subscription_fixed_values (env : SubEnv) :
    (∀ t, (CreateCustomerAndSubscribeToPlan env).savedTxn = some t → t.Currency = "usd") ∧
    (∀ o, (CreateCustomerAndSubscribeToPlan env).savedOrder = some o → o.Quantity = 1) ∧
    (∀ i, (CreateCustomerAndSubscribeToPlan env).sentInvoice = some i →
      i.Amount = 2000 ∧ i.Product = "Bronze Plan monthly subscription" ∧ i.Quantity = 1) := by
  obtain ⟨body, cc, sub, ic, it, io, ip, now⟩ := env
  simp only [CreateCustomerAndSubscribeToPlan, SaveCustomer, SaveTransaction, SaveOrder]
  cases body with
  | error e => refine ⟨?_, ?_, ?_⟩ <;> intro x hx <;> simp_all
  | ok data =>
    by_cases hv : data.FirstName.utf8ByteSize > 1 <;>
      [skip; (refine ⟨?_, ?_, ?_⟩ <;> intro x hx <;> simp_all)]
    cases cc with
    | error msg => refine ⟨?_, ?_, ?_⟩ <;> intro x hx <;> simp_all
    | ok c =>
      cases sub with
      | error e2 => refine ⟨?_, ?_, ?_⟩ <;> intro x hx <;> simp_all
      | ok s =>
        cases ic with
        | error e3 => refine ⟨?_, ?_, ?_⟩ <;> intro x hx <;> simp_all
        | ok nc =>
          cases it with
          | error e4 => refine ⟨?_, ?_, ?_⟩ <;> intro x hx <;> simp_all
          | ok nt =>
            cases io with
            | error e5 =>
              refine ⟨?_, ?_, ?_⟩ <;> intro x hx <;> simp_all <;> (subst hx; simp)
            | ok no =>
              cases ip with
              | error e6 =>
                refine ⟨?_, ?_, ?_⟩ <;> intro x hx <;> simp_all <;> (subst hx; simp)
              | ok u =>
                refine ⟨?_, ?_, ?_⟩ <;> intro x hx <;> simp_all <;> (subst hx; simp)

/-- C9 witness: the all-successful environment sends exactly the fixed
invoice. -/
theorem subscription_fixed_values_witness :
    (CreateCustomerAndSubscribeToPlan subEnvAllOk).sentInvoice = some invoiceW ∧
    invoiceW.Amount = 2000 ∧ invoiceW.Product = "Bronze Plan monthly subscription" ∧
    invoiceW.Quantity = 1 :=
  ⟨rfl, (subscription_fixed_values subEnvAllOk).2.2 invoiceW rfl⟩

/-- C2 counterexample: a request whose customer insert fails is logged but
answered with no JSON response at all, and a request whose card is
declined by the payment provider is answered with the generic JSON error
response but never logged — refuting the claim that every database or
payment-provider error is both logged and answered. -/
theorem payment_error_logging_cex :
    ((CreateCustomerAndSubscribeToPlan subEnvCustFail).logs = [LogSite.saveCustomerError] ∧
     (CreateCustomerAndSubscribeToPlan subEnvCustFail).response = none) ∧
    ((GetPaymentIntent "sk_test" "pk_test" piEnvCardDeclined).logs = [] ∧
     (GetPaymentIntent "sk_test" "pk_test" piEnvCardDeclined).response =
       some (.jsonResponse false "Your card was declined")) :=
  ⟨⟨rfl, rfl⟩, ⟨rfl, rfl⟩⟩

/-- C2 amended: in `CreateCustomerAndSubscribeToPlan` a payment-provider
error is logged and answered with the generic `jsonResponse` error body,
while a database error is logged but the handler returns without writing
any response; in `GetPaymentIntent` a payment-provider error is answered
with the generic `jsonResponse` error body but not logged. -/
theorem payment_error_responses (env : SubEnv) (pienv : PIEnv) (secret key : String) :
    (∀ data msg, env.body = .ok data → data.FirstName.utf8ByteSize > 1 →
      env.createCustomer = .error msg →
      (CreateCustomerAndSubscribeToPlan env).logs = [LogSite.createCustomerError] ∧
      (CreateCustomerAndSubscribeToPlan env).response = some (.jsonResponse false msg)) ∧
    (∀ data c e, env.body = .ok data → data.FirstName.utf8ByteSize > 1 →
      env.createCustomer = .ok c → env.subscribeToPlan = .error e →
      (CreateCustomerAndSubscribeToPlan env).logs = [LogSite.subscribeError] ∧
      (CreateCustomerAndSubscribeToPlan env).response =
        some (.jsonResponse false "Error subscribing customer")) ∧
    (∀ data c s e, env.body = .ok data → data.FirstName.utf8ByteSize > 1 →
      env.createCustomer = .ok c → env.subscribeToPlan = .ok s →
      env.insertCustomer = .error e →
      (CreateCustomerAndSubscribeToPlan env).logs = [LogSite.saveCustomerError] ∧
      (CreateCustomerAndSubscribeToPlan env).response = none) ∧
    (∀ data c s n e, env.body = .ok data → data.FirstName.utf8ByteSize > 1 →
      env.createCustomer = .ok c → env.subscribeToPlan = .ok s →
      env.insertCustomer = .ok n → env.insertTransaction = .error e →
      (CreateCustomerAndSubscribeToPlan env).logs = [LogSite.saveTransactionError] ∧
      (CreateCustomerAndSubscribeToPlan env).response = none) ∧
    (∀ data c s n m e, env.body = .ok data → data.FirstName.utf8ByteSize > 1 →
      env.createCustomer = .ok c → env.subscribeToPlan = .ok s →
      env.insertCustomer = .ok n → env.insertTransaction = .ok m →
      env.insertOrder = .error e →
      (CreateCustomerAndSubscribeToPlan env).logs = [LogSite.saveOrderError] ∧
      (CreateCustomerAndSubscribeToPlan env).response = none) ∧
    (∀ payload e, pienv.body = .ok payload → (goAtoi payload.Amount).2 = true →
      pienv.new = .error e →
      (GetPaymentIntent secret key pienv).logs = [] ∧
      (GetPaymentIntent secret key pienv).response = some (.jsonResponse false
        (match e with
         | .stripeError code => cardErrorMessage code
         | .other _ => ""))) := by
  obtain ⟨body, cc, sub, ic, it, io, ip, now⟩ := env
  obtain ⟨pbody, pnew⟩ := pienv
  refine ⟨?_, ?_, ?_, ?_, ?_, ?_⟩
  · rintro data msg rfl hvgt rfl
    simp [CreateCustomerAndSubscribeToPlan, hvgt]
  · rintro data c e rfl hvgt rfl rfl
    simp [CreateCustomerAndSubscribeToPlan, hvgt]
  · rintro data c s e rfl hvgt rfl rfl rfl
    simp [CreateCustomerAndSubscribeToPlan, SaveCustomer, hvgt]
  · rintro data c s n e rfl hvgt rfl rfl rfl rfl
    simp [CreateCustomerAndSubscribeToPlan, SaveCustomer, SaveTransaction, hvgt]
  · rintro data c s n m e rfl hvgt rfl rfl rfl rfl rfl
    simp [CreateCustomerAndSubscribeToPlan, SaveCustomer, SaveTransaction, SaveOrder, hvgt]
  · rintro payload e rfl hok rfl
    rcases hga : goAtoi payload.Amount with ⟨amount, ok⟩
    rw [hga] at hok
    simp only at hok
    subst hok
    cases e <;> simp [GetPaymentIntent, Card.Charge, Card.CreatePaymentIntent, hga]

/-- C2 witness: the two concrete environments of the counterexample, via
the amended theorem. -/
theorem payment_error_responses_witness :
    ((CreateCustomerAndSubscribeToPlan subEnvCustFail).logs = [LogSite.saveCustomerError] ∧
     (CreateCustomerAndSubscribeToPlan subEnvCustFail).response = none) ∧
    ((GetPaymentIntent "sk_test" "pk_test" piEnvCardDeclined).logs = [] ∧
     (GetPaymentIntent "sk_test" "pk_test" piEnvCardDeclined).response =
       some (.jsonResponse false "Your card was declined")) :=
  ⟨(payment_error_responses subEnvCustFail piEnvCardDeclined "sk_test" "pk_test").2.2.1
     samplePayload { ID := "cus_1" } { ID := "sub_1" } "dial tcp: connection refused"
     rfl (by decide) rfl rfl rfl,
   (payment_error_responses subEnvCustFail piEnvCardDeclined "sk_test" "pk_test").2.2.2.2.2
     samplePayload (.stripeError ErrorCodeCardDeclined) rfl (by decide) rfl⟩

/-- C5 counterexample: the stored bcrypt hash matches the supplied
password, yet no token is granted or stored because the token insert
fails — the handler answers bad request, refuting "grants a token exactly
when the bcrypt hash matches". -/
theorem createAuthToken_grant_cex :
    authEnvInsertFail.passwordMatches = .ok true ∧
    (CreateAuthToken authEnvInsertFail).response = .badRequest "Error 1045: access denied" ∧
    (CreateAuthToken authEnvInsertFail).storedToken = none :=
  ⟨rfl, rfl, rfl⟩

/-- C5 amended: `CreateAuthToken` grants a token exactly when the email
lookup succeeds, the bcrypt comparison returns a match, and both token
generation and the database insert succeed; the granted token carries the
authentication scope and a 24-hour time-to-live and is the stored one; on
a failed lookup, a comparison error or a mismatch the handler answers
invalid credentials and neither generates nor stores a token. -/
theorem createAuthToken_spec (env : AuthEnv) :
    (∀ msg t, (CreateAuthToken env).response = .tokenPayload msg t →
      (∃ u, env.getUserByEmail = .ok u) ∧ env.passwordMatches = .ok true ∧
      (∃ r, env.rand = .ok r) ∧ env.insertToken = .ok ()) ∧
    (∀ input u r, env.body = .ok input → env.getUserByEmail = .ok u →
      env.passwordMatches = .ok true → env.rand = .ok r → env.insertToken = .ok () →
      (CreateAuthToken env).response =
        .tokenPayload ("token for " ++ input.Email ++ " created")
          { PlainText := r, UserID := u.ID, TTL := hour * 24, Scope := ScopeAuthentication } ∧
      (CreateAuthToken env).storedToken =
        some { PlainText := r, UserID := u.ID, TTL := hour * 24,
               Scope := ScopeAuthentication }) ∧
    (∀ input, env.body = .ok input →
      ((∃ e, env.getUserByEmail = .error e) ∨ (∃ e, env.passwordMatches = .error e) ∨
        env.passwordMatches = .ok false) →
      (CreateAuthToken env).response = .invalidCredentials ∧
      (CreateAuthToken env).generatedToken = none ∧
      (CreateAuthToken env).storedToken = none) ∧
    (∀ t, (CreateAuthToken env).generatedToken = some t →
      t.Scope = ScopeAuthentication ∧ t.TTL = hour * 24) := by
  obtain ⟨body, gu, pm, rand, ins⟩ := env
  refine ⟨?_, ?_, ?_, ?_⟩
  · intro msg t h
    cases body with
    | error e => simp [CreateAuthToken] at h
    | ok input =>
      cases gu with
      | error e => simp [CreateAuthToken] at h
      | ok u =>
        cases pm with
        | error e => simp [CreateAuthToken] at h
        | ok b =>
          cases b with
          | false => simp [CreateAuthToken] at h
          | true =>
            cases rand with
            | error e => simp [CreateAuthToken, GenerateToken, Except.map] at h
            | ok r =>
              cases ins with
              | error e => simp [CreateAuthToken, GenerateToken, Except.map] at h
              | ok un => exact ⟨⟨u, rfl⟩, rfl, ⟨r, rfl⟩, rfl⟩
  · rintro input u r rfl rfl rfl rfl h
    cases ins with
    | error e => exact absurd h (by simp)
    | ok un => simp [CreateAuthToken, GenerateToken, Except.map]
  · rintro input rfl (⟨e, rfl⟩ | ⟨e, rfl⟩ | rfl)
    · simp [CreateAuthToken]
    · cases gu <;> simp [CreateAuthToken]
    · cases gu <;> simp [CreateAuthToken]
  · intro t h
    cases body with
    | error e => simp [CreateAuthToken] at h
    | ok input =>
      cases gu with
      | error e => simp [CreateAuthToken] at h
      | ok u =>
        cases pm with
        | error e => simp [CreateAuthToken] at h
        | ok b =>
          cases b with
          | false => simp [CreateAuthToken] at h
          | true =>
            cases rand with
            | error e => simp [CreateAuthToken, GenerateToken, Except.map] at h
            | ok r =>
              cases ins with
              | error e =>
                simp [CreateAuthToken, GenerateToken, Except.map] at h
                subst h
                exact ⟨rfl, rfl⟩
              | ok un =>
                simp [CreateAuthToken, GenerateToken, Except.map] at h
                subst h
                exact ⟨rfl, rfl⟩

/-- C5 witness: the all-successful authentication environment grants and
stores exactly the expected token. -/
theorem createAuthToken_spec_witness :
    (CreateAuthToken authEnvOk).response =
      .tokenPayload "token for admin@example.com created" tokenW ∧
    (CreateAuthToken authEnvOk).storedToken = some tokenW :=
  (createAuthToken_spec authEnvOk).2.1 { Email := "admin@example.com", Password := "secret" }
    sampleUser "ABCDEFGHIJKLMNOPQRSTUVWXYZ" rfl rfl rfl rfl rfl

/-- C8: `authenticateToken` returns a user only when the Authorization
header is nonempty, splits on spaces into exactly two parts whose first is
`"Bearer"` and whose second has byte length 26; when any of these guards
fails it returns an error without performing any database query. -/
theorem authenticateToken_guards (env : TokenAuthEnv) (hdr : String) :
    (∀ u, (authenticateToken env hdr).result = .ok u →
      hdr ≠ "" ∧ (goSplitSpace hdr).length = 2 ∧
      (goSplitSpace hdr).head? = some "Bearer" ∧
      ((goSplitSpace hdr).getD 1 "").utf8ByteSize = 26) ∧
    ((hdr = "" ∨ ¬ (goSplitSpace hdr).length = 2 ∨
      ¬ (goSplitSpace hdr).head? = some "Bearer" ∨
      ¬ ((goSplitSpace hdr).getD 1 "").utf8ByteSize = 26) →
      (∃ e, (authenticateToken env hdr).result = .error e) ∧
      (authenticateToken env hdr).effects = []) := by
  obtain ⟨gu⟩ := env
  by_cases h0 : hdr = ""
  · simp [authenticateToken, h0]
  · by_cases hA : (goSplitSpace hdr).length = 2 ∧ (goSplitSpace hdr).head? = some "Bearer"
    · obtain ⟨hlen, hhead⟩ := hA
      have hno : ¬ ((goSplitSpace hdr).length ≠ 2 ∨ (goSplitSpace hdr).head? ≠ some "Bearer") := by
        simp [hlen, hhead]
      by_cases h2 : ((goSplitSpace hdr).getD 1 "").utf8ByteSize = 26
      · constructor
        · intro u h
          exact ⟨h0, hlen, hhead, h2⟩
        · rintro (hc | hc | hc | hc)
          · exact absurd hc h0
          · exact absurd hlen hc
          · exact absurd hhead hc
          · exact absurd h2 hc
      · have hres : authenticateToken ⟨gu⟩ hdr =
            { result := .error "authentication token wrong size", effects := [] } := by
          simp only [authenticateToken]
          rw [if_neg h0, if_neg hno, if_pos (by simpa using h2)]
        constructor
        · intro u h
          rw [hres] at h
          exact Except.noConfusion h
        · intro _
          rw [hres]
          exact ⟨⟨_, rfl⟩, rfl⟩
    · have hor : (goSplitSpace hdr).length ≠ 2 ∨ (goSplitSpace hdr).head? ≠ some "Bearer" := by
        tauto
      have hres : authenticateToken ⟨gu⟩ hdr =
          { result := .error "no authorization header received", effects := [] } := by
        simp only [authenticateToken]
        rw [if_neg h0, if_pos hor]
      constructor
      · intro u h
        rw [hres] at h
        exact Except.noConfusion h
      · intro _
        rw [hres]
        exact ⟨⟨_, rfl⟩, rfl⟩

/-- C8 witness: a header whose scheme is not `"Bearer"` is rejected with
no database query. -/
theorem authenticateToken_guards_witness :
    (authenticateToken { getUserForToken := .ok sampleUser } "Token abc").result =
      .error "no authorization header received" ∧
    (authenticateToken { getUserForToken := .ok sampleUser } "Token abc").effects = [] :=
  ⟨rfl, ((authenticateToken_guards { getUserForToken := .ok sampleUser } "Token abc").2
    (Or.inr (Or.inr (Or.inl (by decide))))).2⟩

/-- C7 counterexample: the password-reset handler answers a failed email
lookup with an error-flagged JSON body, status 202, that is neither the
bad-request nor the invalid-credentials response — refuting the claim
that every error response is one of exactly those two kinds. -/
theorem error_taxonomy_cex :
    isErrorResponse (SendPasswordResetEmail "http://localhost:4000" resetEnvNoUser) = true ∧
    SendPasswordResetEmail "http://localhost:4000" resetEnvNoUser =
      .writeJSON 202 true "No matching email found on system" ∧
    errorKind (SendPasswordResetEmail "http://localhost:4000" resetEnvNoUser) ≠
      some .badRequest ∧
    errorKind (SendPasswordResetEmail "http://localhost:4000" resetEnvNoUser) ≠
      some .invalidCredentials := by
  refine ⟨rfl, rfl, ?_, ?_⟩ <;> decide

/-- C7 amended: the error responses of the API fall into five kinds — bad
request, invalid credentials, the subscription handler's validation
failure, the payment handlers' transaction-failure message, and the
password-reset no-matching-email notice — distributed over the handlers
exactly as stated. -/
theorem error_taxonomy (secret key frontend : String) (pienv : PIEnv) (env : SubEnv)
    (aenv : AuthEnv) (tenv : TokenAuthEnv) (hdr : String) (gw : Except String Unit)
    (vtenv : VTEnv) (renv : ResetEmailEnv) (rpenv : ResetPasswordEnv)
    (p1 p2 : PaginatedEnv) (gs : Except String Unit) (refEnv cancEnv : StripeOpEnv)
    (au ou : Except String Unit) (eenv : EditUserEnv) (du : Except String Unit)
    (mb : Except String MicroOrder) :
    (∀ r, (GetPaymentIntent secret key pienv).response = some r →
      errorKind r = none ∨ errorKind r = some .txnFailure) ∧
    (∀ r, (CreateCustomerAndSubscribeToPlan env).response = some r →
      errorKind r = none ∨ errorKind r = some .failedValidation ∨
      errorKind r = some .txnFailure) ∧
    (errorKind (CreateAuthToken aenv).response = none ∨
      errorKind (CreateAuthToken aenv).response = some .badRequest ∨
      errorKind (CreateAuthToken aenv).response = some .invalidCredentials) ∧
    (errorKind (CheckAuthentication tenv hdr) = none ∨
      errorKind (CheckAuthentication tenv hdr) = some .invalidCredentials) ∧
    (∀ r, GetWidgetByID gw = some r → errorKind r = none) ∧
    (errorKind (VirtualTerminalPaymentSucceeded vtenv) = none ∨
      errorKind (VirtualTerminalPaymentSucceeded vtenv) = some .badRequest) ∧
    (errorKind (SendPasswordResetEmail frontend renv) = none ∨
      errorKind (SendPasswordResetEmail frontend renv) = some .badRequest ∨
      errorKind (SendPasswordResetEmail frontend renv) = some .otherJSONError) ∧
    (errorKind (ResetPassword rpenv) = none ∨
      errorKind (ResetPassword rpenv) = some .badRequest) ∧
    (errorKind (AllSales p1) = none ∨ errorKind (AllSales p1) = some .badRequest) ∧
    (errorKind (AllSubscriptions p2) = none ∨
      errorKind (AllSubscriptions p2) = some .badRequest) ∧
    (errorKind (GetSale gs) = none ∨ errorKind (GetSale gs) = some .badRequest) ∧
    (errorKind (RefundCharge refEnv) = none ∨
      errorKind (RefundCharge refEnv) = some .badRequest) ∧
    (errorKind (CancelSubscription cancEnv) = none ∨
      errorKind (CancelSubscription cancEnv) = some .badRequest) ∧
    (errorKind (AllUsers au) = none ∨ errorKind (AllUsers au) = some .badRequest) ∧
    (errorKind (OneUser ou) = none ∨ errorKind (OneUser ou) = some .badRequest) ∧
    (errorKind (EditUser eenv) = none ∨ errorKind (EditUser eenv) = some .badRequest) ∧
    (errorKind (DeleteUser du) = none ∨ errorKind (DeleteUser du) = some .badRequest) ∧
    (errorKind (CreateAndSendInvoice mb) = none ∨
      errorKind (CreateAndSendInvoice mb) = some .badRequest) := by
  refine ⟨?_, ?_, ?_, ?_, ?_, ?_, ?_, ?_, ?_, ?_, ?_, ?_, ?_, ?_, ?_, ?_, ?_, ?_⟩
  · obtain ⟨pb, pn⟩ := pienv
    rcases pb with e | payload
    · intro r hr
      simp [GetPaymentIntent] at hr
    · rcases hga : goAtoi payload.Amount with ⟨a, ok⟩
      cases ok
      · intro r hr
        simp [GetPaymentIntent, hga] at hr
      · rcases pn with e | pi <;> intro r hr <;>
          simp [GetPaymentIntent, Card.Charge, Card.CreatePaymentIntent, hga] at hr <;>
          subst hr <;> simp [errorKind]
  · obtain ⟨body, cc, sub, ic, it, io, ip, now⟩ := env
    rcases body with e | data
    · intro r hr
      simp [CreateCustomerAndSubscribeToPlan] at hr
    · by_cases hv : data.FirstName.utf8ByteSize > 1
      · rcases cc with msg | c
        · intro r hr
          simp [CreateCustomerAndSubscribeToPlan, hv] at hr
          subst hr
          simp [errorKind]
        · rcases sub with e2 | s
          · intro r hr
            simp [CreateCustomerAndSubscribeToPlan, hv] at hr
            subst hr
            simp [errorKind]
          · rcases ic with e3 | nc
            · intro r hr
              simp [CreateCustomerAndSubscribeToPlan, SaveCustomer, hv] at hr
            · rcases it with e4 | nt
              · intro r hr
                simp [CreateCustomerAndSubscribeToPlan, SaveCustomer, SaveTransaction, hv] at hr
              · rcases io with e5 | no
                · intro r hr
                  simp [CreateCustomerAndSubscribeToPlan, SaveCustomer, SaveTransaction,
                    SaveOrder, hv] at hr
                · rcases ip with e6 | u <;> intro r hr <;>
                    simp [CreateCustomerAndSubscribeToPlan, SaveCustomer, SaveTransaction,
                      SaveOrder, hv] at hr <;> subst hr <;> simp [errorKind]
      · intro r hr
        simp [CreateCustomerAndSubscribeToPlan, hv] at hr
        subst hr
        simp [errorKind]
  · obtain ⟨body, gu, pm, rand, ins⟩ := aenv
    rcases body with e | input
    · simp [CreateAuthToken, errorKind]
    rcases gu with e | u
    · simp [CreateAuthToken, errorKind]
    rcases pm with e | b
    · simp [CreateAuthToken, errorKind]
    cases b
    · simp [CreateAuthToken, errorKind]
    rcases rand with e | r
    · simp [CreateAuthToken, errorKind, GenerateToken, Except.map]
    rcases ins with e | un <;> simp [CreateAuthToken, errorKind, GenerateToken, Except.map]
  · rcases h : (authenticateToken tenv hdr).result with e | u <;>
      simp [CheckAuthentication, h, errorKind]
  · rcases gw with e | u <;> intro r hr <;> simp [GetWidgetByID] at hr <;> subst hr <;>
      simp [errorKind]
  · obtain ⟨b, rp, gp, it⟩ := vtenv
    rcases b with e | u
    · simp [VirtualTerminalPaymentSucceeded, errorKind]
    rcases rp with e | u2
    · simp [VirtualTerminalPaymentSucceeded, errorKind]
    rcases gp with e | u3
    · simp [VirtualTerminalPaymentSucceeded, errorKind]
    rcases it with e | u4 <;> simp [VirtualTerminalPaymentSucceeded, errorKind]
  · obtain ⟨b, gu, sm, sg⟩ := renv
    rcases b with e | email
    · simp [SendPasswordResetEmail, errorKind]
    rcases gu with e | u
    · simp [SendPasswordResetEmail, errorKind]
    rcases sm with e | un <;> simp [SendPasswordResetEmail, errorKind]
  · obtain ⟨b, dec, gu, gh, up⟩ := rpenv
    rcases b with e | u
    · simp [ResetPassword, errorKind]
    rcases dec with e | em
    · simp [ResetPassword, errorKind]
    rcases gu with e | usr
    · simp [ResetPassword, errorKind]
    rcases gh with e | h2
    · simp [ResetPassword, errorKind]
    rcases up with e | un <;> simp [ResetPassword, errorKind]
  · obtain ⟨b, q⟩ := p1
    rcases b with e | u
    · simp [AllSales, errorKind]
    rcases q with e | u2 <;> simp [AllSales, errorKind]
  · obtain ⟨b, q⟩ := p2
    rcases b with e | u
    · simp [AllSubscriptions, errorKind]
    rcases q with e | u2 <;> simp [AllSubscriptions, errorKind]
  · rcases gs with e | u <;> simp [GetSale, errorKind]
  · obtain ⟨b, so, uo⟩ := refEnv
    rcases b with e | u
    · simp [RefundCharge, errorKind]
    rcases so with e | u2
    · simp [RefundCharge, errorKind]
    rcases uo with e | u3 <;> simp [RefundCharge, errorKind]
  · obtain ⟨b, so, uo⟩ := cancEnv
    rcases b with e | u
    · simp [CancelSubscription, errorKind]
    rcases so with e | u2
    · simp [CancelSubscription, errorKind]
    rcases uo with e | u3 <;> simp [CancelSubscription, errorKind]
  · rcases au with e | u <;> simp [AllUsers, errorKind]
  · rcases ou with e | u <;> simp [OneUser, errorKind]
  · obtain ⟨uid, b, ed, gh, up, ad⟩ := eenv
    rcases b with e | user
    · simp [EditUser, errorKind]
    by_cases hid : uid > 0
    · rcases ed with e | u2
      · simp [EditUser, errorKind, hid]
      by_cases hpw : user.Password ≠ ""
      · rcases gh with e | h2
        · simp [EditUser, errorKind, hid, hpw]
        rcases up with e | u3 <;> simp [EditUser, errorKind, hid, hpw]
      · simp [EditUser, errorKind, hid, hpw]
    · rcases gh with e | h2
      · simp [EditUser, errorKind, hid]
      rcases ad with e | u4 <;> simp [EditUser, errorKind, hid]
  · rcases du with e | u <;> simp [DeleteUser, errorKind]
  · rcases mb with e | order <;> simp [CreateAndSendInvoice, errorKind]

/-- C7 witness: a declined-card response is of the transaction-failure
kind, and the concrete no-matching-email response falls into the five
kinds, via the amended theorem. -/
theorem error_taxonomy_witness :
    (errorKind (.jsonResponse false "Your card was declined") = none ∨
     errorKind (.jsonResponse false "Your card was declined") = some .txnFailure) ∧
    (errorKind (SendPasswordResetEmail "http://localhost:4000" resetEnvNoUser) = none ∨
     errorKind (SendPasswordResetEmail "http://localhost:4000" resetEnvNoUser) =
       some .badRequest ∨
     errorKind (SendPasswordResetEmail "http://localhost:4000" resetEnvNoUser) =
       some .otherJSONError) :=
  let T := error_taxonomy "sk_test" "pk_test" "http://localhost:4000" piEnvCardDeclined
    subEnvAllOk authEnvOk ⟨.ok sampleUser⟩ "hdr" (.ok ()) ⟨.ok (), .ok (), .ok (), .ok ()⟩
    resetEnvNoUser ⟨.ok (), .ok "x", .ok sampleUser, .ok "h", .ok ()⟩ ⟨.ok (), .ok ()⟩
    ⟨.ok (), .ok ()⟩ (.ok ()) ⟨.ok (), .ok (), .ok ()⟩ ⟨.ok (), .ok (), .ok ()⟩ (.ok ())
    (.ok ()) ⟨1, .ok sampleUser, .ok (), .ok "h", .ok (), .ok ()⟩ (.ok ())
    (.ok ⟨1, 1, 100, "Widget", "Jo", "Doe", "jo@example.com", 5⟩)
  ⟨T.1 (.jsonResponse false "Your card was declined") rfl, T.2.2.2.2.2.2.1⟩

end GoEcommerce
